import Mathlib

/-!
Verification of the CAM-SIMA configuration engine (`cime_config/cam_config.py`).

This file gives a shallow embedding of the parts of `ConfigCAM` that the
specification's claims are about:

* the typed configuration registry (`create_config`, `get_value`);
* the CPP-definition list (`add_cppdef`) with its regex-based duplicate check;
* the grid-token canonicalization, classification and spectral-element
  decoding performed by `ConfigCAM.__init__` (embedded as `gridInit`);
* the physics-suite resolution (`ccpp_phys_set`).

Python primitives (`str.strip`, `str.split`, `str.find`, slicing, `int()`,
`str.upper`) are modelled explicitly below; machine integers are `Int`.
-/

namespace CamConfig

/-! ## Python string primitives -/

/-- Python `str.strip()` on a character list: drop leading and trailing
whitespace.  (Only ASCII whitespace occurs in the inputs of this module.) -/
def pyStripL (s : List Char) : List Char :=
  ((s.dropWhile Char.isWhitespace).reverse.dropWhile Char.isWhitespace).reverse

/-- Python `str.strip()` on a `String`. -/
def pyStripS (s : String) : String := ⟨pyStripL s.data⟩

/-- `listStartsWith p s` is true when `p` is an initial segment of `s`. -/
def listStartsWith : List Char → List Char → Bool
  | [], _ => true
  | _ :: _, [] => false
  | a :: as, b :: bs => a = b && listStartsWith as bs

/-- Helper for `pyFind`: index (counting from `i`) of the first occurrence of
`pat` in the remaining list, if any. -/
def pyFindAux (pat : List Char) : List Char → Nat → Option Nat
  | [], i => if listStartsWith pat [] then some i else none
  | c :: rest, i =>
    if listStartsWith pat (c :: rest) then some i else pyFindAux pat rest (i + 1)

/-- Python `s.find(pat)`: index of the first occurrence of `pat` in `s`,
`-1` when absent. -/
def pyFind (s pat : List Char) : Int :=
  match pyFindAux pat s 0 with
  | some i => (i : Int)
  | none => -1

/-- Clamp a (possibly negative) Python slice index to `0 .. len`. -/
def pyIdx (len : Nat) (i : Int) : Nat :=
  if i < 0 then (len + i).toNat else min i.toNat len

/-- Python slice `s[a:b]` with Python's negative-index and clamping rules. -/
def pySlice (s : List Char) (a b : Int) : List Char :=
  (s.take (pyIdx s.length b)).drop (pyIdx s.length a)

/-- Value of a non-empty all-digit character list. -/
def digitsVal : List Char → Option Nat
  | [] => none
  | [c] => if c.isDigit then some (c.toNat - '0'.toNat) else none
  | c :: rest =>
    if c.isDigit then
      (digitsVal rest).map (fun n => (c.toNat - '0'.toNat) * 10 ^ rest.length + n)
    else none

/-- Python `int(s)`: strip whitespace, optional sign, then decimal digits.
(Underscore digit grouping is also accepted by Python but no grid token in
this module contains one, so it is not modelled.) -/
def pyInt (s : List Char) : Option Int :=
  match pyStripL s with
  | '+' :: rest => (digitsVal rest).map Int.ofNat
  | '-' :: rest => (digitsVal rest).map (fun n => -(n : Int))
  | t => (digitsVal t).map Int.ofNat

/-- Python `str.split(';')`: split at every semicolon; the result is never
empty (splitting the empty string gives `[""]`). -/
def pySplitSemiAux : List Char → List Char → List (List Char)
  | [], cur => [cur.reverse]
  | c :: rest, cur =>
    if c = ';' then cur.reverse :: pySplitSemiAux rest [] else pySplitSemiAux rest (c :: cur)

/-- Python `s.split(';')` on a `String`. -/
def pySplitSemi (s : String) : List String :=
  (pySplitSemiAux s.data []).map fun l => ⟨l⟩

/-- Python `str.upper()` (ASCII). -/
def pyUpperS (s : String) : String := ⟨s.data.map Char.toUpper⟩

/-! ## Data model: Python values, errors, and the configuration state -/

/-- Scalar Python values appearing inside configuration lists. -/
inductive PyLeaf where
  | int (n : Int)
  | str (s : String)
  deriving DecidableEq, Repr

/-- The Python value kinds handled by `ConfigCAM.create_config`: integers,
strings and lists are accepted; a dict stands for any unsupported kind
(the doctest uses `{"x": "y"}`). -/
inductive PyVal where
  | int (n : Int)
  | str (s : String)
  | list (l : List PyLeaf)
  | dict (d : List (String × String))
  deriving DecidableEq, Repr

/-- `true` exactly on the unsupported (dict) kind. -/
def isDict : PyVal → Bool
  | .dict _ => true
  | _ => false

/-- Errors raised by the embedded code.  `CamConfigValError` instances are
split by message template; `valueError` and `nameError` are the *untyped*
Python exceptions reachable from this module. -/
inductive CamErr where
  | typeMismatch (name : String)        -- CamConfigTypeError in create_config
  | duplicateName (name : String)       -- CamConfigValError: variable already exists
  | unknownName (name : String)         -- CamConfigValError: invalid configuration name
  | duplicateDefine (symbol : String)   -- CamConfigValError: CPP definition already set
  | invalidDycore (val : String)        -- CamConfigValError: not a valid dycore
  | unknownGrid (grid : String)         -- CamConfigValError: grid matches no known format
  | dycoreMismatch (user grid : String) -- CamConfigValError: user dyn ≠ grid-derived dyn
  | suiteNotFound (sel suites : String) -- CamConfigValError: suite not in list
  | suiteRequired (suites : String)     -- CamConfigValError: no suite selected
  | valueError (s : String)             -- Python ValueError, e.g. from int()
  | nameError (ident : String)          -- Python NameError: undefined variable
  deriving DecidableEq, Repr

/-- The mutable state of a `ConfigCAM` object that the claims touch: the
insertion-ordered configuration dictionary and the CPP-definition list.
(Descriptions, namelist groups and validity specs are metadata the claims do
not mention; the validity classes live outside the covered source file.) -/
structure CamState where
  config_dict : List (String × PyVal)
  cppdefs : List String
  deriving DecidableEq, Repr

/-! ## `ConfigCAM.create_config` and `get_value` (source lines 538-576, 703-716) -/

/-- `ConfigCAM.create_config`: dispatch on the value's kind (an unsupported
kind raises `CamConfigTypeError`), then reject duplicate names, then append.
Value constraints (`valid_vals`) are handled by classes outside the covered
source file and every call below passes values satisfying them, so they are
not modelled. -/
def create_config (st : CamState) (name : String) (val : PyVal) :
    Except CamErr CamState :=
  match val with
  | .dict _ => .error (.typeMismatch name)
  | v =>
    if (st.config_dict.lookup name).isSome then .error (.duplicateName name)
    else .ok { st with config_dict := st.config_dict ++ [(name, v)] }

/-- `ConfigCAM.get_value`. -/
def get_value (st : CamState) (name : String) : Except CamErr PyVal :=
  match st.config_dict.lookup name with
  | some v => .ok v
  | none => .error (.unknownName name)

/-! ## `ConfigCAM.add_cppdef` (source lines 649-699) -/

/-- One step of Python `re.match` for the pattern `-D<symbol>($|=)` used by
`add_cppdef`: the pattern characters are matched in order against the target,
with `.` a wildcard (the sole regex metacharacter occurring in the symbols of
this development; all other pattern characters are literals), and after the
pattern the target must end or continue with `=`. -/
def defMatch : List Char → List Char → Bool
  | [], [] => true
  | [], c :: _ => c = '='
  | _ :: _, [] => false
  | p :: ps, c :: cs => (p = '.' || p = c) && defMatch ps cs

/-- `ConfigCAM.add_cppdef`: reject when the regex `-D<cppname>($|=)` matches
some existing (stripped) entry — note the symbol text is *used as a regex* —
otherwise append `-D<cppname>` or `-D<cppname>=<value>`. -/
def add_cppdef (st : CamState) (cppname : String) (value : Option Int) :
    Except CamErr CamState :=
  let check_str := "-D" ++ cppname
  if st.cppdefs.any (fun d => defMatch check_str.data (pyStripL d.data)) then
    .error (.duplicateDefine (pyUpperS cppname))
  else
    let cpp_str := match value with
      | none => check_str
      | some v => check_str ++ "=" ++ toString v
    .ok { st with cppdefs := st.cppdefs ++ [cpp_str] }

/-! ## Grid-token preprocessing and classification (`ConfigCAM.__init__`,
source lines 114-360) -/

/-- `re.match(r"[0-9][0-9.]*x[0-9][0-9.]*", ·)` scan after the first digit:
the class `[0-9.]` cannot contain `x`, so the regex `x` must match the first
character outside the class, making the match deterministic. -/
def fvScan : List Char → Bool
  | [] => false
  | c :: rest =>
    if c = 'x' then
      match rest with
      | d :: _ => d.isDigit
      | [] => false
    else (c.isDigit || c = '.') && fvScan rest

/-- The FV-dycore pattern `[0-9][0-9.]*x[0-9][0-9.]*` as a prefix match. -/
def fvMatch : List Char → Bool
  | [] => false
  | c :: rest => c.isDigit && fvScan rest

/-- Scan for the SE pattern after `ne` and the first (mandatory) digit:
zero or more further digits, then `np`, then a character in `1`-`8`.  The
trailing `(.*)(pg[1-9])?` of the source regex matches any remainder.  `[0-9]+`
cannot contain `n`, so the position of `np` is deterministic. -/
def seScan : List Char → Bool
  | 'n' :: 'p' :: c :: _ => decide ('1' ≤ c) && decide (c ≤ '8')
  | 'n' :: 'p' :: [] => false
  | c :: rest => c.isDigit && seScan rest
  | [] => false

/-- The SE-dycore pattern `ne[0-9]+np[1-8](.*)(pg[1-9])?` as a prefix match. -/
def seMatch : List Char → Bool
  | 'n' :: 'e' :: c :: rest => c.isDigit && seScan rest
  | _ => false

/-- The FV3-dycore pattern `C[0-9]+` as a prefix match. -/
def fv3Match : List Char → Bool
  | 'C' :: c :: _ => c.isDigit
  | _ => false

/-- The MPAS-dycore pattern `mpasa[0-9]+` as a prefix match. -/
def mpasaMatch : List Char → Bool
  | 'm' :: 'p' :: 'a' :: 's' :: 'a' :: c :: _ => c.isDigit
  | _ => false

/-- The Eulerian-dycore pattern `T[0-9]+` as a prefix match. -/
def eulMatch : List Char → Bool
  | 'T' :: c :: _ => c.isDigit
  | _ => false

/-- The split position of `re.match(r"(.+)z(\d+)", s)`: with a greedy `.+`,
group 1 ends at the last index `i ≥ 1` whose character is `z` followed by at
least one digit (trailing characters after the digits are irrelevant to
`re.match`). -/
def zSplitIdx (s : List Char) : Option Nat :=
  ((List.range s.length).filter fun i =>
    decide (1 ≤ i) &&
      match s.drop i with
      | 'z' :: c :: _ => c.isDigit
      | _ => false).getLast?

/-- Source lines 122-127: strip a trailing vertical-level suffix, keeping
group 1 of `(.+)z(\d+)` when the pattern matches. -/
def stripLevels (s : List Char) : List Char :=
  match zSplitIdx s with
  | some i => s.take i
  | none => s

/-- Source lines 114-127: the hard-wired `ne30pg3` alias rewrite followed by
the vertical-level strip. -/
def canonTok (g : String) : String :=
  let g' := if g = "ne30pg3" then "ne30np4.pg3" else g
  ⟨stripLevels g'.data⟩

/-- Source lines 225-308 (branch conditions only): test the token against the
five dycore patterns in priority order fv, se, fv3, mpas, eul, then the
`"null"` sentinel; otherwise raise the unknown-grid `CamConfigValError`
carrying the token. -/
def classifyDycore (tok : String) : Except CamErr String :=
  if fvMatch tok.data then .ok "fv"
  else if seMatch tok.data then .ok "se"
  else if fv3Match tok.data then .ok "fv3"
  else if mpasaMatch tok.data then .ok "mpas"
  else if eulMatch tok.data then .ok "eul"
  else if tok = "null" then .ok "none"
  else .error (.unknownGrid tok)

/-- Lift `pyInt` to the `ValueError` Python raises on a bad literal. -/
def pyIntE (l : List Char) : Except CamErr Int :=
  match pyInt l with
  | some n => .ok n
  | none => .error (.valueError ⟨l⟩)

/-- Source lines 329-344: decode the cubed-sphere fields of an SE grid token
by exact string offsets — `csne` between index 2 and the first `"np"`,
`csnp` between `"np"` and the first `".pg"` (or the end), `npg` after
`".pg"` (0 when absent).  Each `int()` conversion can raise `ValueError`. -/
def seDecode (s : List Char) : Except CamErr (Int × Int × Int) := do
  let np_idx : Int := pyFind s ['n', 'p']
  let pg_idx : Int := pyFind s ['.', 'p', 'g']
  let csne ← pyIntE (pySlice s 2 np_idx)
  if pg_idx > -1 then
    let csnp ← pyIntE (pySlice s (np_idx + 2) pg_idx)
    let npg ← pyIntE (pySlice s (pg_idx + 3) (s.length : Int))
    pure (csne, csnp, npg)
  else
    let csnp ← pyIntE (pySlice s (np_idx + 2) (s.length : Int))
    pure (csne, csnp, 0)

/-- The valid `--dyn` values (source line 136). -/
def dynValidVals : List String := ["eul", "fv", "se", "fv3", "mpas", "none"]

/-- Source lines 134-148: handle the user `--dyn` option.  `"none"` forces the
grid token and both horizontal dimensions to the `"null"` sentinel; an empty
option means no user choice; any other value must be a valid dycore name. -/
def dynOptStep (userDynOpt tok : String) (nx ny : PyVal) :
    Except CamErr (Option String × String × PyVal × PyVal) :=
  if userDynOpt = "none" then .ok (some "none", "null", .str "null", .str "null")
  else if userDynOpt = "" then .ok (none, tok, nx, ny)
  else if dynValidVals.contains userDynOpt then .ok (some userDynOpt, tok, nx, ny)
  else .error (.invalidDycore userDynOpt)

/-- The per-branch registry and CPP-define side effects of the classification
cascade (source lines 225-308), keyed by the selected core.  The branch
conditions themselves live in `classifyDycore`; each branch creates the
`dyn` and `hgrid` entries and, for `se`, the source-directory list, the
`_MPI`/`SPMD` defines and, when more than one thread, `_OPENMP`; for the
`eul` core the three wavenumber entries; for the `null` grid the `none`
source-directory list. -/
def coreConfigs (core tok : String) (nthrds : Int) (st : CamState) :
    Except CamErr CamState :=
  if core = "fv" then do
    let st ← create_config st "dyn" (.str "fv")
    create_config st "hgrid" (.str tok)
  else if core = "se" then do
    let st ← create_config st "dyn" (.str "se")
    let st ← create_config st "hgrid" (.str tok)
    let st ← create_config st "dyn_src_dirs" (.list [.str "se", .str "se/dycore"])
    let st ← add_cppdef st "_MPI" none
    let st ← add_cppdef st "SPMD" none
    if nthrds > 1 then add_cppdef st "_OPENMP" none else pure st
  else if core = "fv3" then do
    let st ← create_config st "dyn" (.str "fv3")
    create_config st "hgrid" (.str tok)
  else if core = "mpas" then do
    let st ← create_config st "dyn" (.str "mpas")
    create_config st "hgrid" (.str tok)
  else if core = "eul" then do
    let st ← create_config st "dyn" (.str "eul")
    let st ← create_config st "hgrid" (.str tok)
    let st ← create_config st "trm" (.int 1)
    let st ← create_config st "trn" (.int 1)
    create_config st "trk" (.int 1)
  else do
    let st ← create_config st "dyn" (.str "none")
    let st ← create_config st "hgrid" (.str tok)
    create_config st "dyn_src_dirs" (.list [.str "none"])

/-- The string held by a `PyVal` (the `dyn` entry is always a string). -/
def strValOf : PyVal → String
  | .str s => s
  | _ => ""

/-- Source lines 322-376: after the dycore check, either decode the
cubed-sphere fields and register `csne`/`csnp`/`npg` plus the `NP` CPP
definition (`se` core), or register `nlat`/`nlon` from the case
dimensions. -/
def gridDims (dyn tok : String) (case_nx case_ny : PyVal) (st : CamState) :
    Except CamErr CamState :=
  if dyn = "se" then do
    let (csne, csnp, npg) ← seDecode tok.data
    let st ← create_config st "csne" (.int csne)
    let st ← create_config st "csnp" (.int csnp)
    let st ← create_config st "npg" (.int npg)
    add_cppdef st "NP" (some csnp)
  else do
    let st ← create_config st "nlat" case_ny
    create_config st "nlon" case_nx

/-- The grid/dycore slice of `ConfigCAM.__init__` (source lines 114-376):
canonicalize the grid token, handle the `--dyn` option, classify, perform
the per-core registry/CPP side effects, check a user-declared dycore against
the grid-derived one, then compute the horizontal-dimension entries
(`gridDims`). -/
def gridInit (atmGridIn userDynOpt : String) (nthrds : Int) (caseNx caseNy : PyVal) :
    Except CamErr CamState := do
  let (user_dyn_opt, tok, case_nx, case_ny) ←
    dynOptStep userDynOpt (canonTok atmGridIn) caseNx caseNy
  let core ← classifyDycore tok
  let st ← coreConfigs core tok nthrds ⟨[], []⟩
  let dynV ← get_value st "dyn"
  let dyn := strValOf dynV
  match user_dyn_opt with
  | some u => if u ≠ dyn then throw (.dycoreMismatch u dyn) else pure ()
  | none => pure ()
  gridDims dyn tok case_nx case_ny st

/-- Registry lookup through an `Except`-valued pipeline result. -/
def cfgOf (r : Except CamErr CamState) (name : String) : Option PyVal :=
  match r with
  | .ok st => st.config_dict.lookup name
  | .error _ => none

/-! ## `ConfigCAM.ccpp_phys_set` (source lines 799-874) -/

/-- `ConfigCAM.ccpp_phys_set`, as a function of the `physics_suites` config
value and the incoming `phys_nl_pg_dict['physics_suite']['values']` string.
On success it returns the pair (final namelist `values` entry, final
`cam_nml_attr_dict['phys_suite']` entry).

Note the single-suite mismatch branch: the source (line 841) formats its
error message from the undefined variable `user_nl_pg_dict`, so Python
raises `NameError` before the intended `CamConfigValError` is constructed. -/
def ccpp_phys_set (physSuitesVal physNlValuesIn : String) :
    Except CamErr (String × String) :=
  let phys_suites := pySplitSemi physSuitesVal
  let phys_nl_val := pyStripS physNlValuesIn
  if phys_suites.length = 1 then
    if phys_nl_val ≠ "UNSET" then
      if phys_nl_val = pyStripS (phys_suites.headD "") then
        .ok (physNlValuesIn, pyStripS (phys_suites.headD ""))
      else
        .error (.nameError "user_nl_pg_dict")
    else
      .ok (pyStripS (phys_suites.headD ""), pyStripS (phys_suites.headD ""))
  else
    if phys_nl_val ≠ "UNSET" then
      match phys_suites.find? (fun s => phys_nl_val == pyStripS s) with
      | some m => .ok (physNlValuesIn, pyStripS m)
      | none => .error (.suiteNotFound phys_nl_val physSuitesVal)
    else
      .error (.suiteRequired physSuitesVal)

/-- A symbol made only of letters, digits and underscores — i.e. containing
no regex metacharacter. -/
def symWf (s : String) : Bool :=
  s.data.all fun c => c.isAlpha || c.isDigit || c = '_'

/-- Modelled from the claim's words: the literal duplicate condition — some
existing (stripped) entry is exactly `-D<sym>`, or begins with `-D<sym>=`. -/
def literalDup (defs : List String) (sym : String) : Bool :=
  defs.any fun d =>
    decide (pyStripL d.data = ("-D" ++ sym).data) ||
      listStartsWith (("-D" ++ sym ++ "=").data) (pyStripL d.data)

/-! ## Theorems -/

/-- Binding a successful `Except` computation applies the continuation. -/
@[simp] theorem exc_bind_ok {ε α β : Type} (a : α) (f : α → Except ε β) :
    ((Except.ok a : Except ε α) >>= f) = f a := rfl

/-- Binding a failed `Except` computation propagates the error. -/
@[simp] theorem exc_bind_err {ε α β : Type} (e : ε) (f : α → Except ε β) :
    ((Except.error e : Except ε α) >>= f) = .error e := rfl

/-- `pure` for `Except` is `Except.ok`. -/
@[simp] theorem exc_pure {ε α : Type} (a : α) : (pure a : Except ε α) = .ok a := rfl

/-- C4: classification tests the token against the five dycore patterns in
the fixed priority order fv, se, fv3, mpas, eul; the first pattern matching a
prefix of the token selects its core; and a token matching none of the five
that is not the `"null"` sentinel fails with the unknown-grid error carrying
the token. -/
theorem claim_C4 (tok : String) :
    (fvMatch tok.data = true → classifyDycore tok = .ok "fv") ∧
    (fvMatch tok.data = false → seMatch tok.data = true →
      classifyDycore tok = .ok "se") ∧
    (fvMatch tok.data = false → seMatch tok.data = false →
      fv3Match tok.data = true → classifyDycore tok = .ok "fv3") ∧
    (fvMatch tok.data = false → seMatch tok.data = false →
      fv3Match tok.data = false → mpasaMatch tok.data = true →
      classifyDycore tok = .ok "mpas") ∧
    (fvMatch tok.data = false → seMatch tok.data = false →
      fv3Match tok.data = false → mpasaMatch tok.data = false →
      eulMatch tok.data = true → classifyDycore tok = .ok "eul") ∧
    (fvMatch tok.data = false → seMatch tok.data = false →
      fv3Match tok.data = false → mpasaMatch tok.data = false →
      eulMatch tok.data = false → tok ≠ "null" →
      classifyDycore tok = .error (.unknownGrid tok)) := by
  refine ⟨?_, ?_, ?_, ?_, ?_, ?_⟩ <;> intros <;> simp_all [classifyDycore]

/-- Witness for C4 at the concrete token `gauss17`, which matches none of
the five patterns and is not the null sentinel. -/
theorem claim_C4_witness :
    classifyDycore "gauss17" = .error (.unknownGrid "gauss17") :=
  (claim_C4 "gauss17").2.2.2.2.2 (by decide) (by decide) (by decide) (by decide)
    (by decide) (by decide)

/-- C6: in `create_config`, value-kind validation precedes the
name-uniqueness check — an unsupported (dict) value fails with the type error
even when the name exists, a supported value under an existing name fails
with the duplicate-name error — and a success is only possible when the name
was absent, in which case the new entry is appended, so no entry is ever
overwritten and names stay unique. -/
theorem claim_C6 (st : CamState) (name : String) (d : List (String × String))
    (v : PyVal) :
    create_config st name (.dict d) = .error (.typeMismatch name) ∧
    ((st.config_dict.lookup name).isSome = true → isDict v = false →
      create_config st name v = .error (.duplicateName name)) ∧
    (∀ st', create_config st name v = .ok st' →
      st.config_dict.lookup name = none ∧
      st'.config_dict = st.config_dict ++ [(name, v)]) := by
  refine ⟨rfl, ?_, ?_⟩
  · intro hs hd
    cases v <;> simp_all [create_config, isDict]
  · intro st' h
    cases v with
    | dict d2 => simp [create_config] at h
    | int n =>
        simp only [create_config] at h
        split at h
        · exact absurd h (by simp)
        · rename_i hns
          injection h with h2
          subst h2
          exact ⟨Option.not_isSome_iff_eq_none.mp hns, rfl⟩
    | str s =>
        simp only [create_config] at h
        split at h
        · exact absurd h (by simp)
        · rename_i hns
          injection h with h2
          subst h2
          exact ⟨Option.not_isSome_iff_eq_none.mp hns, rfl⟩
    | list l =>
        simp only [create_config] at h
        split at h
        · exact absurd h (by simp)
        · rename_i hns
          injection h with h2
          subst h2
          exact ⟨Option.not_isSome_iff_eq_none.mp hns, rfl⟩

/-- Witness for C6: with the one-entry registry holding `x`, a dict value
under `x` fails with the type error and a supported value under `x` fails
with the duplicate-name error. -/
theorem claim_C6_witness :
    create_config ⟨[("x", .int 5)], []⟩ "x" (.dict [("a", "b")])
      = .error (.typeMismatch "x") ∧
    create_config ⟨[("x", .int 5)], []⟩ "x" (.int 7)
      = .error (.duplicateName "x") :=
  ⟨(claim_C6 ⟨[("x", .int 5)], []⟩ "x" [("a", "b")] (.int 7)).1,
   (claim_C6 ⟨[("x", .int 5)], []⟩ "x" [("a", "b")] (.int 7)).2.1 (by decide)
     (by decide)⟩

/-- C2 (amended): whenever physics-suite resolution succeeds, the attribute
entry receives the resolved (trimmed) suite name, which is a trimmed member
of the declared list; the namelist value entry is written (to the resolved
name) only when the user selection was the `UNSET` sentinel, and with an
explicit selection it keeps the user's original string while the attribute
entry gets its trimmed form. -/
theorem claim_C2 (suites nlIn nlOut attr : String)
    (h : ccpp_phys_set suites nlIn = .ok (nlOut, attr)) :
    attr ∈ (pySplitSemi suites).map pyStripS ∧
    (pyStripS nlIn = "UNSET" → nlOut = attr) ∧
    (pyStripS nlIn ≠ "UNSET" → nlOut = nlIn ∧ attr = pyStripS nlIn) := by
  simp only [ccpp_phys_set] at h
  by_cases h1 : (pySplitSemi suites).length = 1
  · obtain ⟨a, ha⟩ := List.length_eq_one.mp h1
    rw [if_pos h1] at h
    by_cases h2 : pyStripS nlIn ≠ "UNSET"
    · rw [if_pos h2] at h
      by_cases h3 : pyStripS nlIn = pyStripS ((pySplitSemi suites).headD "")
      · rw [if_pos h3] at h
        injection h with hp
        injection hp with hnl hat
        subst hnl hat
        refine ⟨?_, fun hu => absurd hu h2, fun _ => ⟨rfl, h3.symm⟩⟩
        rw [ha]
        simp
      · rw [if_neg h3] at h
        exact absurd h (by simp)
    · rw [if_neg h2] at h
      injection h with hp
      injection hp with hnl hat
      subst hnl hat
      push_neg at h2
      refine ⟨?_, fun _ => rfl, fun hu => absurd h2 hu⟩
      rw [ha]
      simp
  · rw [if_neg h1] at h
    by_cases h2 : pyStripS nlIn ≠ "UNSET"
    · rw [if_pos h2] at h
      cases hf : (pySplitSemi suites).find? (fun s => pyStripS nlIn == pyStripS s) with
      | none => rw [hf] at h; exact absurd h (by simp)
      | some m =>
        rw [hf] at h
        injection h with hp
        injection hp with hnl hat
        subst hnl hat
        have hm : m ∈ pySplitSemi suites := List.mem_of_find?_eq_some hf
        have hq := List.find?_some hf
        simp only [beq_iff_eq] at hq
        refine ⟨List.mem_map_of_mem pyStripS hm, fun hu => absurd hu h2,
          fun _ => ⟨rfl, hq.symm⟩⟩
    · rw [if_neg h2] at h
      exact absurd h (by simp)

/-- Witness for C2 at the declared list `a;b` with explicit matching
selection `b`. -/
theorem claim_C2_witness :
    "b" ∈ (pySplitSemi "a;b").map pyStripS ∧
    (pyStripS "b" = "UNSET" → "b" = "b") ∧
    (pyStripS "b" ≠ "UNSET" → "b" = "b" ∧ "b" = pyStripS "b") :=
  claim_C2 "a;b" "b" "b" "b" (by rfl)

/-- `List.any` respects pointwise-equal predicates. -/
theorem anyCongr {α : Type} {l : List α} {f g : α → Bool}
    (h : ∀ a ∈ l, f a = g a) : l.any f = l.any g := by
  induction l with
  | nil => rfl
  | cons a t ih =>
    simp only [List.any_cons, h a (by simp)]
    rw [ih fun b hb => h b (by simp [hb])]

/-- For a pattern without the `.` wildcard, the `-D<symbol>($|=)` regex test
is the literal condition: the target equals the pattern, or the pattern
followed by `=` is an initial segment of the target. -/
theorem defMatch_literal (p t : List Char) (hp : ∀ c ∈ p, c ≠ '.') :
    defMatch p t = (decide (t = p) || listStartsWith (p ++ ['=']) t) := by
  induction p generalizing t with
  | nil =>
    cases t with
    | nil => rfl
    | cons c cs => simp [defMatch, listStartsWith, eq_comm]
  | cons a as ih =>
    cases t with
    | nil => simp [defMatch, listStartsWith]
    | cons c cs =>
      have ha : a ≠ '.' := hp a (by simp)
      have ih' := ih cs fun x hx => hp x (by simp [hx])
      by_cases hac : a = c
      · subst hac
        simp [defMatch, listStartsWith, ha, ih', List.cons.injEq,
          Bool.and_or_distrib_left]
      · have hca : ¬c = a := fun h => hac h.symm
        simp [defMatch, listStartsWith, ha, hac, hca]


/-- C5 (amended): for symbols without regex metacharacters (letters, digits,
underscores) `add_cppdef` rejects exactly under the literal condition — some
existing entry is `-D` plus the symbol followed by end-of-string or `=` — and
otherwise appends `-D<symbol>` or `-D<symbol>=<value>` at the end, leaving
all previous entries unchanged.  (For symbols containing metacharacters the
rejection condition is the regex one; see the counterexample.) -/
theorem claim_C5 (st : CamState) (sym : String) (v : Option Int)
    (hw : symWf sym = true) :
    (add_cppdef st sym v = .error (.duplicateDefine (pyUpperS sym)) ↔
      literalDup st.cppdefs sym = true) ∧
    (literalDup st.cppdefs sym = false →
      add_cppdef st sym v = .ok ⟨st.config_dict, st.cppdefs ++
        [match v with
         | none => "-D" ++ sym
         | some n => "-D" ++ sym ++ "=" ++ toString n]⟩) := by
  have hdot : ∀ c ∈ ("-D" ++ sym).data, c ≠ '.' := by
    rw [String.data_append]
    intro c hc
    rcases List.mem_append.mp hc with h | h
    · have hD : ("-D" : String).data = ['-', 'D'] := rfl
      rw [hD] at h
      have h2 : c = '-' ∨ c = 'D' := by simpa using h
      rcases h2 with rfl | rfl
      · decide
      · decide
    · have := List.all_eq_true.mp hw c h
      intro heq
      subst heq
      exact absurd this (by decide)
  have heq : (("-D" ++ sym ++ "=").data) = ("-D" ++ sym).data ++ ['='] := by
    rw [String.data_append]
  have hguard :
      (st.cppdefs.any fun d => defMatch ("-D" ++ sym).data (pyStripL d.data))
        = literalDup st.cppdefs sym := by
    unfold literalDup
    refine anyCongr fun d _ => ?_
    rw [defMatch_literal _ _ hdot, heq]
  have hadd : add_cppdef st sym v =
      if literalDup st.cppdefs sym then .error (.duplicateDefine (pyUpperS sym))
      else .ok ⟨st.config_dict, st.cppdefs ++
        [match v with
         | none => "-D" ++ sym
         | some n => "-D" ++ sym ++ "=" ++ toString n]⟩ := by
    unfold add_cppdef
    simp only [hguard]
  refine ⟨?_, ?_⟩
  · rw [hadd]
    cases hld : literalDup st.cppdefs sym <;> simp [hld]
  · intro hld
    rw [hadd, hld]
    simp

/-- C5 counterexample: add `AXB`, then add the distinct symbol `A.B` — the
second add is rejected with the duplicate-define error although no existing
entry consists of `-D` plus that symbol followed by end-of-string or `=`,
because the symbol text is interpreted as a regular expression whose `.`
matches `X`.  So "rejects exactly when some existing entry consists of -D
plus that symbol followed by end-of-string or =" fails as stated. -/
theorem claim_C5_cex :
    (add_cppdef ⟨[], []⟩ "AXB" none).bind (fun st => add_cppdef st "A.B" none)
      = .error (.duplicateDefine "A.B") ∧
    add_cppdef ⟨[], []⟩ "AXB" none = .ok ⟨[], ["-DAXB"]⟩ ∧
    (∀ d ∈ ["-DAXB"], pyStripS d ≠ "-DA.B" ∧
      listStartsWith "-DA.B=".data (pyStripS d).data = false) := by
  refine ⟨rfl, rfl, by decide⟩

/-- Witness for C5 at the doctest state `-DNEW_TEST=5` with the symbol
`NEW_TEST` (rejected by the literal condition). -/
theorem claim_C5_witness :
    (add_cppdef ⟨[], ["-DNEW_TEST=5"]⟩ "NEW_TEST" none
        = .error (.duplicateDefine (pyUpperS "NEW_TEST")) ↔
      literalDup ["-DNEW_TEST=5"] "NEW_TEST" = true) ∧
    (literalDup ["-DNEW_TEST=5"] "NEW_TEST" = false →
      add_cppdef ⟨[], ["-DNEW_TEST=5"]⟩ "NEW_TEST" none
        = .ok ⟨[], ["-DNEW_TEST=5", "-DNEW_TEST"]⟩) :=
  claim_C5 ⟨[], ["-DNEW_TEST=5"]⟩ "NEW_TEST" none (by decide)

/-- `throw` for `Except` is `Except.error`. -/
@[simp] theorem exc_throw {ε α : Type} (e : ε) :
    (throw e : Except ε α) = .error e := rfl

/-- A successful `create_config` appends the new entry and leaves the CPP
definitions unchanged. -/
theorem create_config_ok {st : CamState} {name : String} {v : PyVal}
    {st' : CamState} (h : create_config st name v = .ok st') :
    st'.config_dict = st.config_dict ++ [(name, v)] ∧ st'.cppdefs = st.cppdefs := by
  cases v with
  | dict d => simp [create_config] at h
  | int m =>
    simp only [create_config] at h
    split at h
    · exact absurd h (by simp)
    · injection h with h2; subst h2; exact ⟨rfl, rfl⟩
  | str s =>
    simp only [create_config] at h
    split at h
    · exact absurd h (by simp)
    · injection h with h2; subst h2; exact ⟨rfl, rfl⟩
  | list l =>
    simp only [create_config] at h
    split at h
    · exact absurd h (by simp)
    · injection h with h2; subst h2; exact ⟨rfl, rfl⟩

/-- A successful `add_cppdef` leaves the configuration dictionary
unchanged. -/
theorem add_cppdef_ok {st : CamState} {s : String} {v : Option Int}
    {st' : CamState} (h : add_cppdef st s v = .ok st') :
    st'.config_dict = st.config_dict := by
  simp only [add_cppdef] at h
  split at h
  · exact absurd h (by simp)
  · injection h with h2; subst h2; rfl

/-- A successful `get_value` is a dictionary lookup. -/
theorem get_value_some {st : CamState} {k : String} {v : PyVal}
    (h : get_value st k = .ok v) : st.config_dict.lookup k = some v := by
  unfold get_value at h
  cases hl : st.config_dict.lookup k with
  | some w => simp [hl] at h; subst h; rfl
  | none => simp [hl] at h

/-- A key found in the front list is found in the concatenation. -/
theorem lookup_append_some {l₁ l₂ : List (String × PyVal)} {k : String}
    {v : PyVal} (h : l₁.lookup k = some v) : (l₁ ++ l₂).lookup k = some v := by
  induction l₁ with
  | nil => simp at h
  | cons a t ih =>
    obtain ⟨k', v'⟩ := a
    rw [List.cons_append]
    simp only [List.lookup_cons] at h ⊢
    cases hk : (k == k') <;> simp only [hk] at h ⊢
    · exact ih h
    · exact h

/-- A successful `gridDims` only appends configuration entries. -/
theorem gridDims_dict {dyn tok : String} {cx cy : PyVal} {st1 st : CamState}
    (h : gridDims dyn tok cx cy st1 = .ok st) :
    ∃ l2, st.config_dict = st1.config_dict ++ l2 := by
  unfold gridDims at h
  split at h
  · cases hsd : seDecode tok.data with
    | error e => rw [hsd] at h; simp at h
    | ok trip =>
      obtain ⟨csne, csnp, npg⟩ := trip
      rw [hsd] at h
      simp only [exc_bind_ok] at h
      cases h1 : create_config st1 "csne" (.int csne) with
      | error e => rw [h1] at h; simp at h
      | ok s2 =>
        rw [h1] at h
        simp only [exc_bind_ok] at h
        cases h2 : create_config s2 "csnp" (.int csnp) with
        | error e => rw [h2] at h; simp at h
        | ok s3 =>
          rw [h2] at h
          simp only [exc_bind_ok] at h
          cases h3 : create_config s3 "npg" (.int npg) with
          | error e => rw [h3] at h; simp at h
          | ok s4 =>
            rw [h3] at h
            simp only [exc_bind_ok] at h
            have e4 := add_cppdef_ok h
            have e1 := (create_config_ok h1).1
            have e2 := (create_config_ok h2).1
            have e3 := (create_config_ok h3).1
            exact ⟨[("csne", .int csne), ("csnp", .int csnp), ("npg", .int npg)],
              by rw [e4, e3, e2, e1]; simp⟩
  · cases h1 : create_config st1 "nlat" cy with
    | error e => rw [h1] at h; simp at h
    | ok s2 =>
      rw [h1] at h
      simp only [exc_bind_ok] at h
      have e1 := (create_config_ok h1).1
      have e2 := (create_config_ok h).1
      exact ⟨[("nlat", cy), ("nlon", cx)], by rw [e2, e1]; simp⟩

/-- C7 (amended): for every grid string and inputs for which construction
with no `--dyn` value succeeds with grid-implied core `c`, supplying a
`--dyn` value `u` among the five real dycores fails with the
dycore-mismatch error when `u ≠ c` and returns the identical result when
`u = c`.  (Supplying `--dyn none` instead replaces the grid with the null
sentinel, and an invalid value fails earlier with the invalid-dycore
error; see the counterexample.) -/
theorem claim_C7 (g u : String) (n : Int) (nx ny : PyVal) (st : CamState)
    (c : String) (hu : u ∈ ["eul", "fv", "se", "fv3", "mpas"])
    (h : gridInit g "" n nx ny = .ok st)
    (hc : st.config_dict.lookup "dyn" = some (.str c)) :
    (u ≠ c → gridInit g u n nx ny = .error (.dycoreMismatch u c)) ∧
    (u = c → gridInit g u n nx ny = .ok st) := by
  unfold gridInit at h
  rw [show dynOptStep "" (canonTok g) nx ny = .ok (none, canonTok g, nx, ny)
    from rfl] at h
  simp only [exc_bind_ok] at h
  cases hcl : classifyDycore (canonTok g) with
  | error e => rw [hcl] at h; simp at h
  | ok core =>
    rw [hcl] at h
    simp only [exc_bind_ok] at h
    cases hcc : coreConfigs core (canonTok g) n ⟨[], []⟩ with
    | error e => rw [hcc] at h; simp at h
    | ok st1 =>
      rw [hcc] at h
      simp only [exc_bind_ok] at h
      cases hgv : get_value st1 "dyn" with
      | error e => rw [hgv] at h; simp at h
      | ok dynV =>
        rw [hgv] at h
        simp only [exc_bind_ok, exc_pure] at h
        obtain ⟨l2, hl2⟩ := gridDims_dict h
        have hdyn1 : st1.config_dict.lookup "dyn" = some dynV := get_value_some hgv
        have hlk : (st1.config_dict ++ l2).lookup "dyn" = some dynV :=
          lookup_append_some hdyn1
        rw [← hl2, hc] at hlk
        injection hlk with hv
        have hsv : strValOf dynV = c := by subst hv; rfl
        have hu3 : dynOptStep u (canonTok g) nx ny = .ok (some u, canonTok g, nx, ny) := by
          fin_cases hu <;> rfl
        constructor
        · intro hne
          unfold gridInit
          rw [hu3]
          simp only [exc_bind_ok]
          rw [hcl]
          simp only [exc_bind_ok]
          rw [hcc]
          simp only [exc_bind_ok]
          rw [hgv]
          simp only [exc_bind_ok]
          rw [hsv]
          simp [hne]
        · intro hequ
          subst hequ
          unfold gridInit
          rw [hu3]
          simp only [exc_bind_ok]
          rw [hcl]
          simp only [exc_bind_ok]
          rw [hcc]
          simp only [exc_bind_ok]
          rw [hgv]
          simp only [exc_bind_ok]
          rw [hsv]
          rw [if_neg (by simp)]
          simp only [exc_pure, exc_bind_ok]
          rw [hsv] at h
          exact h

/-- Witness for C7: the grid `T42` implies the Eulerian core, so the
disagreeing user value `fv` fails with the dycore-mismatch error. -/
theorem claim_C7_witness :
    gridInit "T42" "fv" 1 (.int 180) (.int 90)
      = .error (.dycoreMismatch "fv" "eul") :=
  (claim_C7 "T42" "fv" 1 (.int 180) (.int 90)
      ⟨[("dyn", .str "eul"), ("hgrid", .str "T42"), ("trm", .int 1),
        ("trn", .int 1), ("trk", .int 1), ("nlat", .int 90),
        ("nlon", .int 180)], []⟩ "eul"
      (by decide) (by rfl) (by rfl)).1 (by decide)

/-- C1: physics-suite resolution: with one declared suite a sentinel
selection resolves to it and a matching explicit selection resolves; with two
declared suites a sentinel selection fails (suite required) and a
non-matching selection fails (suite not found) while a matching one resolves;
but a mismatching explicit selection against a single declared suite hits the
undefined variable `user_nl_pg_dict` in the error-raising statement, so the
code fails with Python `NameError` instead of the intended
`CamConfigValError`. -/
theorem claim_C1_bug :
    ccpp_phys_set "kessler" "UNSET" = .ok ("kessler", "kessler") ∧
    ccpp_phys_set "kessler" "kessler" = .ok ("kessler", "kessler") ∧
    ccpp_phys_set "kessler;held_suarez_1994" "UNSET"
      = .error (.suiteRequired "kessler;held_suarez_1994") ∧
    ccpp_phys_set "kessler;held_suarez_1994" "adiabatic"
      = .error (.suiteNotFound "adiabatic" "kessler;held_suarez_1994") ∧
    ccpp_phys_set "kessler;held_suarez_1994" "held_suarez_1994"
      = .ok ("held_suarez_1994", "held_suarez_1994") ∧
    ccpp_phys_set "kessler" "held_suarez" = .error (.nameError "user_nl_pg_dict") := by
  refine ⟨rfl, rfl, rfl, rfl, rfl, rfl⟩

/-- C2 counterexample: with the single declared suite `kessler` and the
explicit matching selection `" kessler "`, resolution succeeds but the
namelist value entry keeps the user's original (untrimmed) string, which is
not the resolved suite name — so the resolved name is not written into the
namelist value dictionary. -/
theorem claim_C2_cex :
    ccpp_phys_set "kessler" " kessler " = .ok (" kessler ", "kessler") ∧
    " kessler " ≠ "kessler" := by
  exact ⟨rfl, by decide⟩

/-- C3: spectral-element tokens are decoded by exact string offsets:
`ne30np4` yields (30, 4, 0), `ne30np4.pg2` yields (30, 4, 2), and the legacy
alias `ne30pg3` is rewritten to `ne30np4.pg3` and yields (30, 4, 3); the
decoded fields reach the registry as `csne`, `csnp`, `npg`. -/
theorem claim_C3 :
    seDecode "ne30np4".data = .ok (30, 4, 0) ∧
    seDecode "ne30np4.pg2".data = .ok (30, 4, 2) ∧
    canonTok "ne30pg3" = "ne30np4.pg3" ∧
    seDecode "ne30np4.pg3".data = .ok (30, 4, 3) ∧
    cfgOf (gridInit "ne30np4" "" 1 (.int 180) (.int 90)) "csne" = some (.int 30) ∧
    cfgOf (gridInit "ne30np4" "" 1 (.int 180) (.int 90)) "csnp" = some (.int 4) ∧
    cfgOf (gridInit "ne30np4" "" 1 (.int 180) (.int 90)) "npg" = some (.int 0) ∧
    cfgOf (gridInit "ne30np4.pg2" "" 1 (.int 180) (.int 90)) "npg" = some (.int 2) ∧
    cfgOf (gridInit "ne30pg3" "" 1 (.int 180) (.int 90)) "hgrid"
      = some (.str "ne30np4.pg3") ∧
    cfgOf (gridInit "ne30pg3" "" 1 (.int 180) (.int 90)) "csne" = some (.int 30) ∧
    cfgOf (gridInit "ne30pg3" "" 1 (.int 180) (.int 90)) "csnp" = some (.int 4) ∧
    cfgOf (gridInit "ne30pg3" "" 1 (.int 180) (.int 90)) "npg" = some (.int 3) := by
  refine ⟨rfl, rfl, rfl, rfl, rfl, rfl, rfl, rfl, rfl, rfl, rfl, rfl⟩

/-- C7 counterexample: the grid token `ne30np4` classifies to the
spectral-element core `se`, the user-supplied `--dyn none` differs from it,
yet construction succeeds and adopts core `none` (the `none` option replaces
the grid by the `null` sentinel before classification), contradicting the
claim that a differing user value always fails with the dycore-mismatch
error. -/
theorem claim_C7_cex :
    classifyDycore (canonTok "ne30np4") = .ok "se" ∧
    cfgOf (gridInit "ne30np4" "none" 1 (.int 180) (.int 90)) "dyn"
      = some (.str "none") ∧
    "none" ≠ "se" := by
  exact ⟨rfl, rfl, by decide⟩

/-- C8: the duplicate check of `add_cppdef` uses the candidate symbol as a
regular expression: with the single stored entry `-DAXB`, adding the distinct
symbol `A.B` (whose `.` matches any character) fails with the
duplicate-define error although no entry consists of `-DA.B` optionally
followed by `=` and a value. -/
theorem claim_C8 :
    add_cppdef ⟨[], ["-DAXB"]⟩ "A.B" none = .error (.duplicateDefine "A.B") ∧
    "A.B" ≠ "AXB" ∧
    (∀ d ∈ ["-DAXB"], pyStripS d ≠ "-DA.B" ∧
      listStartsWith "-DA.B=".data (pyStripS d).data = false) := by
  refine ⟨rfl, by decide, by decide⟩

/-- C9 counterexample: the token `ne30np44` has the form
`ne<int>np<digit><suffix>` with the non-empty suffix `4` that does not begin
with `.pg`, yet its decode does not raise `ValueError`: construction
succeeds with a per-element point count of 44. -/
theorem claim_C9_cex :
    "ne30np44".data = "ne30np4".data ++ ['4'] ∧
    seMatch "ne30np44".data = true ∧
    listStartsWith ".pg".data ['4'] = false ∧
    cfgOf (gridInit "ne30np44" "" 1 (.int 180) (.int 90)) "csnp"
      = some (.int 44) := by
  refine ⟨by decide, by decide, by decide, rfl⟩

/-- C9 (amended): there exist tokens accepted by the spectral-element pattern
whose numeric decode fails with the untyped Python `ValueError` rather than a
typed configuration error — exactly those whose substring between `np` and
`.pg` (or end of string) is not an integer literal, e.g. `ne30np4x` and
`ne30np4pg3`. -/
theorem claim_C9 :
    seMatch "ne30np4x".data = true ∧
    gridInit "ne30np4x" "" 1 (.int 180) (.int 90) = .error (.valueError "4x") ∧
    seMatch "ne30np4pg3".data = true ∧
    gridInit "ne30np4pg3" "" 1 (.int 180) (.int 90)
      = .error (.valueError "4pg3") := by
  refine ⟨by decide, rfl, by decide, rfl⟩

/-- C10: when the user requests `--dyn none`, the registry entries `nlat` and
`nlon` hold the string `"null"` for every grid name and all integer
`ATM_NX`/`ATM_NY` host inputs — the value kind of these entries depends on
the dynamics option, not on the host input types. -/
theorem claim_C10 (g : String) (nthrds nx ny : Int) :
    cfgOf (gridInit g "none" nthrds (.int nx) (.int ny)) "nlat"
      = some (.str "null") ∧
    cfgOf (gridInit g "none" nthrds (.int nx) (.int ny)) "nlon"
      = some (.str "null") := by
  exact ⟨rfl, rfl⟩

end CamConfig
